import Mathlib

/-!
# StudyGenie — AI provider orchestration and resilient response pipeline

Shallow embedding of the AI-pipeline core of the StudyGenie backend:
the Puter HTTP client with its endpoint loop and mock generator
(`src/backend/puterClient.js`), the five text-feature route handlers of
`src/backend/server.js`, and the OpenRouter client
(`src/unnamed/part_000`).

Modelling conventions:
* A JavaScript string that gets `JSON.parse`d is modelled by `ContentStr`:
  `ContentStr.jsonOf j` stands for a string that is valid JSON and parses
  to the JSON value `j`; `ContentStr.plain s` stands for the literal
  string `s` in the case that `s` is not valid JSON (the canned prose
  texts of the mock generator are of this kind).  `JSON.parse` succeeds
  exactly on the first kind.
* Network calls are modelled by an explicit environment: a function from
  an endpoint URL to `Option RespData`, where `none` is a call-level
  failure (network error, timeout, non-2xx) and `some d` is a successful
  response carrying payload `d`.  `await` and promises disappear: each
  call is a pure lookup in the environment.
* A JavaScript exception is an `Except.error`; `try`/`catch` is matching
  on the `Except`.
-/

set_option maxRecDepth 1000000

namespace StudyGenie

/-- JSON values, as produced by `JSON.parse` and consumed by the route
handlers.  Numbers are restricted to integers (all numbers appearing in
the sources are integers). -/
inductive Js where
  | null
  | bool (b : Bool)
  | num (n : Int)
  | str (s : String)
  | arr (elems : List Js)
  | obj (fields : List (String × Js))

/-- A string as classified by `JSON.parse`: `jsonOf j` is a string that is
valid JSON text parsing to `j` (e.g. the output of `JSON.stringify j`);
`plain s` is the string `s`, not valid JSON. -/
inductive ContentStr where
  | jsonOf (j : Js)
  | plain (s : String)

/-- `JSON.parse` on a content string: succeeds exactly on valid JSON,
throws (models the `SyntaxError`) on anything else. -/
def jsonParse : ContentStr → Except String Js
  | .jsonOf j => .ok j
  | .plain _ => .error "Unexpected token in JSON"

/-- JS `String.prototype.toLowerCase`, character by character.  `Char.toLower`
agrees with JS on ASCII, which covers all strings appearing in the sources. -/
def toLowerCase (s : String) : String :=
  String.mk (s.toList.map Char.toLower)

/-- Helper for `includes`: does `pat` occur as a contiguous block of `l`? -/
def includesAux (pat : List Char) : List Char → Bool
  | [] => pat.isEmpty
  | c :: tl => List.isPrefixOf pat (c :: tl) || includesAux pat tl

/-- JS `String.prototype.includes pat` — substring test, used by
`generateSmartResponse` for keyword dispatch. -/
def includes (s pat : String) : Bool :=
  includesAux pat.toList s.toList

/-- Mock study-style payload of `PuterClient.generateSmartResponse`
(`src/backend/puterClient.js` lines 107–118), as the JSON value that the
`JSON.stringify` call there serialises. -/
def mockStudyStyleJs : Js :=
  .obj [("style", .str "Adaptive Visual-Kinesthetic Learner"),
        ("strengths", .arr [.str "Visual processing", .str "Hands-on learning",
                            .str "Pattern recognition", .str "Active engagement"]),
        ("recommendations", .arr
          [.str "Use mind maps and flowcharts for complex topics",
           .str "Take frequent breaks using the Pomodoro technique",
           .str "Practice with real-world examples and case studies",
           .str "Use color-coding and visual organization systems",
           .str "Engage in group discussions and peer learning"]),
        ("summary", .str "You learn best through visual aids and hands-on activities. Your adaptive learning style allows you to switch between different approaches based on the subject matter.")]

/-- Mock stress payload of `PuterClient.generateSmartResponse`
(`src/backend/puterClient.js` lines 122–132). -/
def mockStressJs : Js :=
  .obj [("level", .str "Moderate"),
        ("drivers", .arr [.str "Academic workload", .str "Time management challenges",
                          .str "Social pressures", .str "Future uncertainty"]),
        ("suggestions", .arr
          [.str "Practice mindfulness and deep breathing exercises",
           .str "Create a structured daily routine with buffer time",
           .str "Break large tasks into smaller, manageable chunks",
           .str "Maintain regular sleep schedule and exercise",
           .str "Connect with support networks and seek help when needed"])]

/-- Mock roadmap payload of `PuterClient.generateSmartResponse`
(`src/backend/puterClient.js` lines 136–144). -/
def mockRoadmapJs : Js :=
  .obj [("roadmap", .arr
          [.obj [("week", .num 1),
                 ("topics", .arr [.str "Course Foundation", .str "Key Concepts"]),
                 ("activities", .arr [.str "Read introductory materials",
                                      .str "Complete diagnostic quiz", .str "Set learning goals"])],
           .obj [("week", .num 2),
                 ("topics", .arr [.str "Core Principles", .str "Practical Applications"]),
                 ("activities", .arr [.str "Practice exercises",
                                      .str "Case study analysis", .str "Group discussions"])],
           .obj [("week", .num 3),
                 ("topics", .arr [.str "Advanced Topics", .str "Integration"]),
                 ("activities", .arr [.str "Research project",
                                      .str "Peer collaboration", .str "Expert interviews"])],
           .obj [("week", .num 4),
                 ("topics", .arr [.str "Mastery & Review", .str "Real-world Application"]),
                 ("activities", .arr [.str "Final project",
                                      .str "Comprehensive review", .str "Portfolio development"])]]),
        ("mindmap", .str "Core concepts form the foundation, branching into practical applications and advanced topics. Integration occurs through hands-on projects, leading to mastery and real-world application. Each element connects to reinforce learning and build comprehensive understanding.")]

/-- Canned support-coach prose of `generateSmartResponse`
(`src/backend/puterClient.js` line 148); plain prose, not valid JSON. -/
def supportMockText : String :=
  "I hear you, and I want you to acknowledge that seeking support shows tremendous strength and self-awareness. Academic challenges can feel overwhelming, but remember that every successful person has faced similar struggles. Take things one step at a time, celebrate small victories, and be compassionate with yourself. You have unique strengths and capabilities that will help you overcome these challenges. Consider breaking down your goals into smaller, achievable steps, and don\x27t hesitate to reach out to mentors, peers, or counselors when you need guidance. You\x27ve got this! 🌟"

/-- Default NOVA chat prose of `generateSmartResponse`
(`src/backend/puterClient.js` line 152); plain prose, not valid JSON. -/
def novaDefaultText : String :=
  "Thanks for your question! As your study assistant NOVA, I\x27d recommend approaching this systematically. Break down the topic into smaller, manageable parts and create a structured study plan. Use active recall techniques, spaced repetition, and connect new information to what you already know. Consider using visual aids like diagrams or mind maps, and don\x27t forget to take regular breaks to maintain focus. Is there a specific aspect you\x27d like me to help you explore further?"

/-- `PuterClient.generateSmartResponse` (`src/backend/puterClient.js`
lines 102–153): lowers the prompt and dispatches on keyword categories in
source order, returning the serialised canned payload for the first
matching category. -/
def generateSmartResponse (prompt : String) : ContentStr :=
  let lowerPrompt := toLowerCase prompt
  if includes lowerPrompt "study style" || includes lowerPrompt "learning" then
    .jsonOf mockStudyStyleJs
  else if includes lowerPrompt "stress" || includes lowerPrompt "lifestyle" then
    .jsonOf mockStressJs
  else if includes lowerPrompt "roadmap" || includes lowerPrompt "course" then
    .jsonOf mockRoadmapJs
  else if includes lowerPrompt "support" || includes lowerPrompt "coach" then
    .plain supportMockText
  else
    .plain novaDefaultText

/-! ## The PuterClient HTTP adapter (`src/backend/puterClient.js`) -/

/-- Payload of a successful endpoint call, i.e. axios\x27 decoded `response.data`.
The three optional fields model `data.response`, `data.message`, `data.content`:
`some c` when the field is present with a truthy value whose string form is `c`
(a non-string field value is represented through its serialisation, so by a
`ContentStr`), `none` when the field is absent or falsy.  `body` is the string
form of the whole of `data`, used when none of the three fields is set (a
non-string body goes through `JSON.stringify`, hence is `ContentStr.jsonOf`). -/
structure RespData where
  response : Option ContentStr
  message : Option ContentStr
  content : Option ContentStr
  body : ContentStr

/-- The network environment of one request: what a POST to each endpoint URL
returns — `none` for a call-level failure (network error, timeout, non-2xx),
`some d` for a 2xx response with payload `d`. -/
abbrev Net := String → Option RespData

/-- The network environment in which every endpoint call fails: no provider is
reachable (or, equally, no provider is configured). -/
def netAllFail : Net := fun _ => none

/-- `this.apiBaseUrl` from the `PuterClient` constructor (line 14). -/
def apiBaseUrl : String := "https://api.puter.com"

/-- The candidate endpoints of `PuterClient.chat`, in source order
(lines 31–35). -/
def puterEndpoints : List String :=
  [apiBaseUrl ++ "/ai/chat", apiBaseUrl ++ "/v1/chat/completions",
   "https://puter.com/api/ai/chat"]

/-- The `for (const endpoint of endpoints)` loop of `PuterClient.chat`
(lines 37–65): endpoints are tried in list order, a failed call means
`continue`, and the payload of the first successful call is returned.
`none` models reaching the `throw new Error('All API endpoints failed')`
after the loop. -/
def tryEndpoints (net : Net) : List String → Option RespData
  | [] => none
  | e :: rest =>
    match net e with
    | some d => some d
    | none => tryEndpoints net rest

/-- Payload extraction of `PuterClient.chat` line 55:
`response.data.response || response.data.message || response.data.content || response.data`,
followed by the stringify-if-not-a-string step (lines 56–58), which the
`ContentStr` representation absorbs. -/
def extractContent (d : RespData) : ContentStr :=
  match d.response with
  | some c => c
  | none =>
    match d.message with
    | some c => c
    | none =>
      match d.content with
      | some c => c
      | none => d.body

/-- The instance fields set in `PuterClient`\x27s constructor (lines 12–16);
`initialized` backs `isAvailable()` (line 156). -/
structure PuterClientState where
  initialized : Bool
  fallbackToMock : Bool

/-- The state the singleton `puterClient` is constructed with:
`initialized = true`, `fallbackToMock = false`. -/
def initialState : PuterClientState :=
  { initialized := true, fallbackToMock := false }

/-- `PuterClient.isAvailable` (lines 155–157). -/
def PuterClient.isAvailable (st : PuterClientState) : Bool :=
  st.initialized

/-- The value `PuterClient.chat` resolves with: `{ message: { content } }`. -/
structure ChatEnvelope where
  content : ContentStr

/-- Result shape of `PuterClient.chat`. -/
structure ChatResult where
  message : ChatEnvelope

/-- `PuterClient.chat` (lines 23–89).  When `fallbackToMock` is unset it walks
the endpoint list; on a first success it returns the extracted content, and
when every endpoint fails (the `throw` after the loop, swallowed by the
`apiError` catch) it falls through to `generateSmartResponse`.  The outer
catch (lines 81–88) also answers with `generateSmartResponse`; since every
branch above already returns, `chat` never throws on a string prompt. -/
def PuterClient.chat (st : PuterClientState) (net : Net) (prompt : String) :
    ChatResult :=
  if st.fallbackToMock then
    { message := { content := generateSmartResponse prompt } }
  else
    match tryEndpoints net puterEndpoints with
    | some d => { message := { content := extractContent d } }
    | none => { message := { content := generateSmartResponse prompt } }

/-- An element of the `messages` array passed to `chatWithMessages`: either a
role-tagged object with a string `content` field, or a bare string (the
`lastMessage.content || lastMessage` fallback on line 94 accommodates both). -/
inductive ChatMsg where
  | objMsg (role : String) (content : String)
  | strMsg (s : String)

/-- `PuterClient.chatWithMessages` (lines 91–100).  On an empty `messages`
array, `messages[messages.length - 1]` is `undefined`, reading `.content` of
it throws a `TypeError`, and the catch block rethrows — modelled as
`Except.error`.  On an object message with a falsy (empty) `content`, the
`|| lastMessage` fallback passes the object itself as the prompt; the string
operations `chat` and `generateSmartResponse` then apply to it throw, the
final one past `chat`\x27s catches, and `chatWithMessages` rethrows that too. -/
def chatWithMessages (st : PuterClientState) (net : Net)
    (messages : List ChatMsg) : Except String ChatResult :=
  match messages.getLast? with
  | none => .error "TypeError: cannot read properties of undefined"
  | some (.strMsg s) => .ok (PuterClient.chat st net s)
  | some (.objMsg _ c) =>
    if c.isEmpty then .error "TypeError: prompt is not a string"
    else .ok (PuterClient.chat st net c)

/-! ## The OpenRouter adapter (`src/unnamed/part_000`) -/

/-- `OpenRouterClient` constructor state: `apiKey` is
`process.env.OPENROUTER_API_KEY`, with `none` for a missing (or empty, hence
falsy) variable. -/
structure OpenRouterClient where
  apiKey : Option String

/-- The availability flag computed in the constructor (lines 18–25) and
returned by `isAvailable()`: unset or placeholder key means unavailable. -/
def OpenRouterClient.isAvailable (c : OpenRouterClient) : Bool :=
  match c.apiKey with
  | none => false
  | some k => !(k == "your-openrouter-api-key-here")

/-- Network environment for the OpenRouter adapter: what the single POST to
`this.baseUrl` yields for a prompt — `some content` is a 2xx response with
`choices[0].message.content` equal to `content`, `none` a call failure. -/
abbrev OrNet := String → Option String

/-- `OpenRouterClient.generateResponse` (lines 31–59): throws immediately when
the client is unavailable, otherwise performs the single network call and
rethrows its error (the catch logs and rethrows). -/
def OpenRouterClient.generateResponse (c : OpenRouterClient) (net : OrNet)
    (prompt : String) : Except String String :=
  if c.isAvailable then
    match net prompt with
    | some content => .ok content
    | none => .error "OpenRouter API error"
  else
    .error "OpenRouter client not available"

/-! ## The five text-feature route handlers (`src/backend/server.js`)

Each `/ai/...` route wraps its provider attempt in an inner `try`/`catch`
whose catch substitutes the route-level mock.  The handler functions below
model exactly that inner computation: the returned `Except` is what would
escape to the route\x27s **outer** catch (the HTTP 500 path); every
provider-side error is already consumed before that. -/

/-- Prompt of `/ai/study-style` (line 188); the argument stands for
`JSON.stringify(answers)`. -/
def studyStylePrompt (answers : String) : String :=
  "You are an educational AI that analyzes study style preferences. Based on the user\x27s responses to a 5-point Likert scale questionnaire (1=Strongly Disagree, 5=Strongly Agree), provide a detailed analysis of their learning style, strengths, and personalized study recommendations. Return your response as a JSON object with fields: style (main learning style), strengths (array of strengths), recommendations (array of specific study tips), and summary (brief overview).\n\nPlease analyze these study style responses: " ++ answers

/-- Prompt of `/ai/stress` (line 229); the argument stands for
`JSON.stringify(lifestyle)`. -/
def stressPrompt (lifestyle : String) : String :=
  "You are a stress level analyzer. Return JSON with: level (Low/Medium/High), drivers (array of strings), suggestions (array of strings).\n\nAnalyze stress level from lifestyle data: " ++ lifestyle

/-- Prompt of `/ai/genieguide` (line 269). -/
def geniePrompt (courseInfo weeklyHours : String) : String :=
  "Create a study roadmap. Return JSON with: roadmap (array of week objects with week number, topics, activities), mindmap (string describing connections between topics).\n\nCreate roadmap for: " ++ courseInfo ++ ", " ++ weeklyHours ++ " hours/week"

/-- The `contextMessage` of `/ai/chat` (lines 309–311); each list element
stands for the serialisation of one history row, newest first, and the
brackets and commas reproduce `JSON.stringify` of the sliced array. -/
def chatContextMessage (rows : List String) : String :=
  if rows.length > 0 then
    "User\x27s recent activity: [" ++ String.intercalate "," (rows.take 3) ++ "]"
  else
    "No recent activity available."

/-- Prompt of `/ai/chat` (line 313). -/
def chatPrompt (rows : List String) (message : String) : String :=
  "You are NOVA, a helpful study assistant. Provide educational support and study guidance. " ++ chatContextMessage rows ++ "\n\nUser question: " ++ message

/-- Prompt of `/ai/support` (line 346). -/
def supportPrompt (message : String) : String :=
  "You are a supportive educational coach. Provide empathetic, encouraging responses. Always include a disclaimer that this is educational support, not medical care.\n\nUser message: " ++ message

/-- Route-level mock of `/ai/study-style` (lines 199–209). -/
def studyStyleRouteMock : Js :=
  .obj [("style", .str "Visual-Kinesthetic Learner"),
        ("strengths", .arr [.str "Visual processing", .str "Hands-on learning",
                            .str "Pattern recognition"]),
        ("recommendations", .arr
          [.str "Use mind maps and diagrams for complex topics",
           .str "Take frequent breaks during study sessions",
           .str "Practice with real-world examples and case studies",
           .str "Use color-coding for different subjects or topics"]),
        ("summary", .str "You learn best through visual aids and hands-on activities. Incorporate diagrams, charts, and practical exercises into your study routine.")]

/-- Route-level mock of `/ai/stress` (lines 240–249). -/
def stressRouteMock : Js :=
  .obj [("level", .str "Medium"),
        ("drivers", .arr [.str "Academic workload", .str "Time management",
                          .str "Social pressures"]),
        ("suggestions", .arr
          [.str "Practice deep breathing exercises daily",
           .str "Create a structured study schedule",
           .str "Take regular breaks during study sessions",
           .str "Consider talking to a counselor or trusted friend"])]

/-- Route-level mock of `/ai/genieguide` (lines 280–288). -/
def genieRouteMock : Js :=
  .obj [("roadmap", .arr
          [.obj [("week", .num 1),
                 ("topics", .arr [.str "Course Overview", .str "Basic Concepts"]),
                 ("activities", .arr [.str "Read chapters 1-2", .str "Complete intro quiz"])],
           .obj [("week", .num 2),
                 ("topics", .arr [.str "Core Principles", .str "Practical Applications"]),
                 ("activities", .arr [.str "Practice problems", .str "Group discussion"])],
           .obj [("week", .num 3),
                 ("topics", .arr [.str "Advanced Topics", .str "Case Studies"]),
                 ("activities", .arr [.str "Research project", .str "Peer review"])],
           .obj [("week", .num 4),
                 ("topics", .arr [.str "Integration", .str "Review"]),
                 ("activities", .arr [.str "Final project", .str "Comprehensive review"])]]),
        ("mindmap", .str "Core concepts connect to practical applications, which branch into case studies and real-world examples. Advanced topics build upon basic principles, leading to integrated understanding and mastery.")]

/-- Route-level mock answer of `/ai/chat` (lines 324–326), a template around
the user\x27s message; prose, not valid JSON. -/
def chatRouteMockAnswer (message : String) : String :=
  "Thanks for your question about \"" ++ message ++ "\". As your study assistant NOVA, I\x27d recommend breaking this topic down into smaller parts and creating a study plan. Consider using active recall techniques and spaced repetition for better retention."

/-- Route-level mock response text of `/ai/support` (line 361); prose, not
valid JSON. -/
def supportRouteMockText : String :=
  "I hear you, and I want you to know that what you\x27re feeling is valid. Academic challenges can be overwhelming, but remember that seeking support shows strength. Take things one step at a time, and be kind to yourself. You\x27ve got this!"

/-- The fixed disclaimer attached by `/ai/support` on both paths
(lines 351 and 362). -/
def disclaimerText : String :=
  "This is a supportive educational tool, not medical care. If you are in crisis, please seek local emergency help or contact a mental health professional."

/-- What a feature route sends back: the JSON routes respond with the parsed
(or mock) object, `/ai/chat` with `{ answer }`, `/ai/support` with
`{ response, disclaimer }`. -/
inductive RouteOut where
  | jsonOut (j : Js)
  | chatOut (answer : ContentStr)
  | supportOut (resp : ContentStr) (disclaimer : String)

/-- Inner `try` block of `/ai/study-style` (lines 185–195): throw when
`puterClient.isAvailable()` is false, otherwise `JSON.parse` the chat
content (whose `SyntaxError` propagates to the inner catch). -/
def studyStyleInner (st : PuterClientState) (net : Net) (answers : String) :
    Except String Js :=
  if PuterClient.isAvailable st then
    jsonParse (PuterClient.chat st net (studyStylePrompt answers)).message.content
  else
    .error "Puter.js not available"

/-- `/ai/study-style` response computation (lines 179–218): the inner
try/catch, with the route-level mock as the catch. -/
def studyStyleHandler (st : PuterClientState) (net : Net) (answers : String) :
    Except String RouteOut :=
  match studyStyleInner st net answers with
  | .ok j => .ok (.jsonOut j)
  | .error _ => .ok (.jsonOut studyStyleRouteMock)

/-- Inner `try` block of `/ai/stress` (lines 226–236). -/
def stressInner (st : PuterClientState) (net : Net) (lifestyle : String) :
    Except String Js :=
  if PuterClient.isAvailable st then
    jsonParse (PuterClient.chat st net (stressPrompt lifestyle)).message.content
  else
    .error "Puter.js not available"

/-- `/ai/stress` response computation (lines 220–258). -/
def stressHandler (st : PuterClientState) (net : Net) (lifestyle : String) :
    Except String RouteOut :=
  match stressInner st net lifestyle with
  | .ok j => .ok (.jsonOut j)
  | .error _ => .ok (.jsonOut stressRouteMock)

/-- Inner `try` block of `/ai/genieguide` (lines 266–276). -/
def genieInner (st : PuterClientState) (net : Net)
    (courseInfo weeklyHours : String) : Except String Js :=
  if PuterClient.isAvailable st then
    jsonParse (PuterClient.chat st net (geniePrompt courseInfo weeklyHours)).message.content
  else
    .error "Puter.js not available"

/-- `/ai/genieguide` response computation (lines 260–297). -/
def genieHandler (st : PuterClientState) (net : Net)
    (courseInfo weeklyHours : String) : Except String RouteOut :=
  match genieInner st net courseInfo weeklyHours with
  | .ok j => .ok (.jsonOut j)
  | .error _ => .ok (.jsonOut genieRouteMock)

/-- Inner `try` block of `/ai/chat` (lines 306–320): no parsing, the chat
content is used verbatim as the answer. -/
def chatInner (st : PuterClientState) (net : Net) (rows : List String)
    (message : String) : Except String ContentStr :=
  if PuterClient.isAvailable st then
    .ok (PuterClient.chat st net (chatPrompt rows message)).message.content
  else
    .error "Puter.js not available"

/-- `/ai/chat` response computation (lines 299–335). -/
def chatHandler (st : PuterClientState) (net : Net) (rows : List String)
    (message : String) : Except String RouteOut :=
  match chatInner st net rows message with
  | .ok c => .ok (.chatOut c)
  | .error _ => .ok (.chatOut (.plain (chatRouteMockAnswer message)))

/-- Inner `try` block of `/ai/support` (lines 343–356). -/
def supportInner (st : PuterClientState) (net : Net) (message : String) :
    Except String ContentStr :=
  if PuterClient.isAvailable st then
    .ok (PuterClient.chat st net (supportPrompt message)).message.content
  else
    .error "Puter.js not available"

/-- `/ai/support` response computation (lines 337–372); the disclaimer is
attached on both paths. -/
def supportHandler (st : PuterClientState) (net : Net) (message : String) :
    Except String RouteOut :=
  match supportInner st net message with
  | .ok c => .ok (.supportOut c disclaimerText)
  | .error _ => .ok (.supportOut (.plain supportRouteMockText) disclaimerText)

/-- The five text features served by the AI routes. -/
inductive Feature where
  | studyStyle
  | stress
  | genieguide
  | chat
  | support
  deriving DecidableEq

/-- The request-scoped inputs of the five routes, bundled so the pipeline can
be quantified feature-uniformly.  String-typed fields stand for the
serialisations interpolated into the prompts. -/
structure FeatureArgs where
  answers : String
  lifestyle : String
  courseInfo : String
  weeklyHours : String
  message : String
  rows : List String

/-- The whole pipeline, feature-dispatched: what each `/ai/...` route computes
as its response, given the client state and the network environment. -/
def runFeature (f : Feature) (st : PuterClientState) (net : Net)
    (a : FeatureArgs) : Except String RouteOut :=
  match f with
  | .studyStyle => studyStyleHandler st net a.answers
  | .stress => stressHandler st net a.lifestyle
  | .genieguide => genieHandler st net a.courseInfo a.weeklyHours
  | .chat => chatHandler st net a.rows a.message
  | .support => supportHandler st net a.message

/-- Field lookup on a JSON object (first binding wins), for schema checks. -/
def Js.getField : Js → String → Option Js
  | .obj fields, key => List.lookup key fields
  | _, _ => none

/-- Does the JSON value carry the field? -/
def Js.hasField (j : Js) (key : String) : Bool :=
  (Js.getField j key).isSome

/-- Schema check from the spec\x27s §3 contracts: the response shape each
feature\x27s callers rely on.  For the JSON routes this checks presence of
every required field; the chat and support shapes carry their required
fields (`answer`, resp. `response` and `disclaimer`) by construction. -/
def schemaOK (f : Feature) (r : RouteOut) : Bool :=
  match f, r with
  | .studyStyle, .jsonOut j =>
    j.hasField "style" && j.hasField "strengths" &&
      j.hasField "recommendations" && j.hasField "summary"
  | .stress, .jsonOut j =>
    j.hasField "level" && j.hasField "drivers" && j.hasField "suggestions"
  | .genieguide, .jsonOut j =>
    j.hasField "roadmap" && j.hasField "mindmap"
  | .chat, .chatOut _ => true
  | .support, .supportOut _ _ => true
  | _, _ => false

/-- The response along the guaranteed mock path (every endpoint call failing):
the mock generator\x27s content for the feature\x27s prompt — parsed by the
JSON routes, with the route-level mock when that content is not JSON — and
wrapped verbatim by the chat and support routes. -/
def mockPathResult (f : Feature) (a : FeatureArgs) : RouteOut :=
  match f with
  | .studyStyle =>
    match jsonParse (generateSmartResponse (studyStylePrompt a.answers)) with
    | .ok j => .jsonOut j
    | .error _ => .jsonOut studyStyleRouteMock
  | .stress =>
    match jsonParse (generateSmartResponse (stressPrompt a.lifestyle)) with
    | .ok j => .jsonOut j
    | .error _ => .jsonOut stressRouteMock
  | .genieguide =>
    match jsonParse (generateSmartResponse (geniePrompt a.courseInfo a.weeklyHours)) with
    | .ok j => .jsonOut j
    | .error _ => .jsonOut genieRouteMock
  | .chat =>
    .chatOut (generateSmartResponse (chatPrompt a.rows a.message))
  | .support =>
    .supportOut (generateSmartResponse (supportPrompt a.message)) disclaimerText

/-! ## Auxiliary environments and helper lemmas -/

/-- A network in which every endpoint call succeeds with the same payload. -/
def netConst (d : RespData) : Net := fun _ => some d

/-- A successful response carrying the plain (non-JSON) text `s` as its body
and none of the sniffed fields — what axios yields when a provider answers
2xx with free text. -/
def textResp (s : String) : RespData :=
  { response := none, message := none, content := none, body := .plain s }

/-- A successful response carrying the JSON value `j` as its body and none of
the sniffed fields. -/
def jsonResp (j : Js) : RespData :=
  { response := none, message := none, content := none, body := .jsonOf j }

/-- The keyword categories of `generateSmartResponse`\x27s dispatch, in source
order of their checks. -/
inductive MockCategory where
  | studyStyle
  | stress
  | roadmap
  | support
  | generic
  deriving DecidableEq

/-- The category of a prompt: the first branch of `generateSmartResponse`
(lines 106, 121, 135, 147, 151 of `src/backend/puterClient.js`) whose keyword
test matches the lowered prompt. -/
def mockCategory (prompt : String) : MockCategory :=
  let lowerPrompt := toLowerCase prompt
  if includes lowerPrompt "study style" || includes lowerPrompt "learning" then
    .studyStyle
  else if includes lowerPrompt "stress" || includes lowerPrompt "lifestyle" then
    .stress
  else if includes lowerPrompt "roadmap" || includes lowerPrompt "course" then
    .roadmap
  else if includes lowerPrompt "support" || includes lowerPrompt "coach" then
    .support
  else
    .generic

/-- The canned content each keyword category stands for. -/
def payloadOf : MockCategory → ContentStr
  | .studyStyle => .jsonOf mockStudyStyleJs
  | .stress => .jsonOf mockStressJs
  | .roadmap => .jsonOf mockRoadmapJs
  | .support => .plain supportMockText
  | .generic => .plain novaDefaultText

/-- Inputs that do not smuggle a higher-precedence keyword into the feature\x27s
prompt: the stress route needs its lifestyle serialisation free of study-style
keywords, the genieguide route its course data free of study-style and stress
keywords; the other three features need nothing (their prompts\x27 own category
always matches first, or they do not parse the content at all). -/
def cleanArgs : Feature → FeatureArgs → Bool
  | .studyStyle, _ => true
  | .stress, a =>
    !(includes (toLowerCase (stressPrompt a.lifestyle)) "study style") &&
      !(includes (toLowerCase (stressPrompt a.lifestyle)) "learning")
  | .genieguide, a =>
    !(includes (toLowerCase (geniePrompt a.courseInfo a.weeklyHours)) "study style") &&
      !(includes (toLowerCase (geniePrompt a.courseInfo a.weeklyHours)) "learning") &&
      !(includes (toLowerCase (geniePrompt a.courseInfo a.weeklyHours)) "stress") &&
      !(includes (toLowerCase (geniePrompt a.courseInfo a.weeklyHours)) "lifestyle")
  | .chat, _ => true
  | .support, _ => true

/-- A concrete, keyword-neutral bundle of request inputs, used by the closed
instance theorems. -/
def sampleArgs : FeatureArgs :=
  { answers := "agree with question 1",
    lifestyle := "sleep 4 hours, heavy workload",
    courseInfo := "linear algebra",
    weeklyHours := "6",
    message := "hello",
    rows := [] }

theorem includesAux_nil (l : List Char) : includesAux [] l = true := by
  induction l with
  | nil => rfl
  | cons c tl ih => simp [includesAux, List.isPrefixOf]

theorem includesAux_append (pat l r : List Char)
    (h : includesAux pat l = true) : includesAux pat (l ++ r) = true := by
  induction l with
  | nil =>
    have hp : pat = [] := by
      simp [includesAux] at h
      exact h
    subst hp
    exact includesAux_nil r
  | cons c tl ih =>
    simp only [List.cons_append, includesAux, Bool.or_eq_true] at h ⊢
    rcases h with h | h
    · left
      rw [List.isPrefixOf_iff_prefix] at h ⊢
      have : (c :: tl) <+: (c :: (tl ++ r)) := List.prefix_append (c :: tl) r
      exact h.trans this
    · right
      exact ih h

theorem toLowerCase_append (a b : String) :
    toLowerCase (a ++ b) = toLowerCase a ++ toLowerCase b := by
  cases a with
  | mk la =>
    cases b with
    | mk lb =>
      show String.mk ((la ++ lb).map Char.toLower)
          = String.mk (la.map Char.toLower) ++ String.mk (lb.map Char.toLower)
      show String.mk ((la ++ lb).map Char.toLower)
          = String.mk (la.map Char.toLower ++ lb.map Char.toLower)
      rw [List.map_append]

theorem includes_append_left (s t pat : String)
    (h : includes s pat = true) : includes (s ++ t) pat = true := by
  unfold includes at h ⊢
  have hl : (s ++ t).toList = s.toList ++ t.toList := String.data_append s t
  rw [hl]
  exact includesAux_append _ _ _ h

/-- First branch of the dispatch: a study-style keyword wins outright. -/
theorem gsr_study (p : String)
    (h : (includes (toLowerCase p) "study style"
            || includes (toLowerCase p) "learning") = true) :
    generateSmartResponse p = .jsonOf mockStudyStyleJs := by
  unfold generateSmartResponse
  simp [h]

/-- Second branch of the dispatch: with no study-style keyword, a stress
keyword selects the stress payload. -/
theorem gsr_stress (p : String)
    (h1 : includes (toLowerCase p) "study style" = false)
    (h2 : includes (toLowerCase p) "learning" = false)
    (h3 : (includes (toLowerCase p) "stress"
            || includes (toLowerCase p) "lifestyle") = true) :
    generateSmartResponse p = .jsonOf mockStressJs := by
  unfold generateSmartResponse
  simp [h1, h2, h3]

/-- Third branch of the dispatch: with no study-style and no stress keyword, a
roadmap keyword selects the roadmap payload. -/
theorem gsr_roadmap (p : String)
    (h1 : includes (toLowerCase p) "study style" = false)
    (h2 : includes (toLowerCase p) "learning" = false)
    (h3 : includes (toLowerCase p) "stress" = false)
    (h4 : includes (toLowerCase p) "lifestyle" = false)
    (h5 : (includes (toLowerCase p) "roadmap"
            || includes (toLowerCase p) "course") = true) :
    generateSmartResponse p = .jsonOf mockRoadmapJs := by
  unfold generateSmartResponse
  simp [h1, h2, h3, h4, h5]

/-- The study-style route prompt always matches the study-style keyword
category, whatever the answers serialisation is. -/
theorem studyStylePrompt_matches (answers : String) :
    includes (toLowerCase (studyStylePrompt answers)) "study style" = true := by
  unfold studyStylePrompt
  rw [toLowerCase_append]
  exact includes_append_left _ _ _ (by decide)

/-- The stress route prompt always holds the substring "stress", whatever the
lifestyle serialisation is. -/
theorem stressPrompt_contains_stress (lifestyle : String) :
    includes (toLowerCase (stressPrompt lifestyle)) "stress" = true := by
  unfold stressPrompt
  rw [toLowerCase_append]
  exact includes_append_left _ _ _ (by decide)

/-- The genieguide route prompt always holds the substring "roadmap". -/
theorem geniePrompt_contains_roadmap (courseInfo weeklyHours : String) :
    includes (toLowerCase (geniePrompt courseInfo weeklyHours)) "roadmap" = true := by
  unfold geniePrompt
  rw [show "Create a study roadmap. Return JSON with: roadmap (array of week objects with week number, topics, activities), mindmap (string describing connections between topics).\n\nCreate roadmap for: " ++ courseInfo ++ ", " ++ weeklyHours ++ " hours/week"
        = "Create a study roadmap. Return JSON with: roadmap (array of week objects with week number, topics, activities), mindmap (string describing connections between topics).\n\nCreate roadmap for: " ++ (courseInfo ++ (", " ++ (weeklyHours ++ " hours/week")))
      from by rw [String.append_assoc, String.append_assoc, String.append_assoc]]
  rw [toLowerCase_append]
  exact includes_append_left _ _ _ (by decide)

/-- Every feature pipeline call returns a response, whatever the client state
and the network do. -/
theorem runFeature_isOk (f : Feature) (st : PuterClientState) (net : Net)
    (a : FeatureArgs) : ∃ r, runFeature f st net a = Except.ok r := by
  cases f
  case studyStyle =>
    cases h : studyStyleInner st net a.answers with
    | ok j => exact ⟨.jsonOut j, by simp [runFeature, studyStyleHandler, h]⟩
    | error e => exact ⟨.jsonOut studyStyleRouteMock, by simp [runFeature, studyStyleHandler, h]⟩
  case stress =>
    cases h : stressInner st net a.lifestyle with
    | ok j => exact ⟨.jsonOut j, by simp [runFeature, stressHandler, h]⟩
    | error e => exact ⟨.jsonOut stressRouteMock, by simp [runFeature, stressHandler, h]⟩
  case genieguide =>
    cases h : genieInner st net a.courseInfo a.weeklyHours with
    | ok j => exact ⟨.jsonOut j, by simp [runFeature, genieHandler, h]⟩
    | error e => exact ⟨.jsonOut genieRouteMock, by simp [runFeature, genieHandler, h]⟩
  case chat =>
    cases h : chatInner st net a.rows a.message with
    | ok c => exact ⟨.chatOut c, by simp [runFeature, chatHandler, h]⟩
    | error e =>
      exact ⟨.chatOut (.plain (chatRouteMockAnswer a.message)),
             by simp [runFeature, chatHandler, h]⟩
  case support =>
    cases h : supportInner st net a.message with
    | ok c => exact ⟨.supportOut c disclaimerText, by simp [runFeature, supportHandler, h]⟩
    | error e =>
      exact ⟨.supportOut (.plain supportRouteMockText) disclaimerText,
             by simp [runFeature, supportHandler, h]⟩

set_option maxHeartbeats 2000000 in
/-- With every endpoint call failing, each pipeline answers with its mock-path
response. -/
theorem runFeature_netAllFail (f : Feature) (a : FeatureArgs) :
    runFeature f initialState netAllFail a = Except.ok (mockPathResult f a) := by
  cases f
  case studyStyle =>
    have h : studyStyleInner initialState netAllFail a.answers
        = jsonParse (generateSmartResponse (studyStylePrompt a.answers)) := rfl
    show studyStyleHandler initialState netAllFail a.answers = _
    unfold studyStyleHandler mockPathResult
    rw [h]
    cases jsonParse (generateSmartResponse (studyStylePrompt a.answers)) <;> rfl
  case stress =>
    have h : stressInner initialState netAllFail a.lifestyle
        = jsonParse (generateSmartResponse (stressPrompt a.lifestyle)) := rfl
    show stressHandler initialState netAllFail a.lifestyle = _
    unfold stressHandler mockPathResult
    rw [h]
    cases jsonParse (generateSmartResponse (stressPrompt a.lifestyle)) <;> rfl
  case genieguide =>
    have h : genieInner initialState netAllFail a.courseInfo a.weeklyHours
        = jsonParse (generateSmartResponse (geniePrompt a.courseInfo a.weeklyHours)) := rfl
    show genieHandler initialState netAllFail a.courseInfo a.weeklyHours = _
    unfold genieHandler mockPathResult
    rw [h]
    cases jsonParse (generateSmartResponse (geniePrompt a.courseInfo a.weeklyHours)) <;> rfl
  case chat => rfl
  case support => rfl

/-- Two JSON values differing at a field differ. -/
theorem js_ne_of_field (j k : Js) (key : String)
    (h : Js.getField j key ≠ Js.getField k key) : j ≠ k :=
  fun e => h (congrArg (fun x => Js.getField x key) e)

/-- The mock generator factors through the keyword category. -/
theorem gsr_eq_payload (p : String) :
    generateSmartResponse p = payloadOf (mockCategory p) := by
  unfold generateSmartResponse mockCategory
  dsimp only
  split_ifs <;> rfl

/-- The route-level stress mock and the generator\x27s stress payload are
different objects (their `level` fields differ). -/
theorem stressMocks_ne : stressRouteMock ≠ mockStressJs := by
  apply js_ne_of_field _ _ "level"
  intro q
  rw [show Js.getField stressRouteMock "level" = some (Js.str "Medium") from rfl] at q
  rw [show Js.getField mockStressJs "level" = some (Js.str "Moderate") from rfl] at q
  injection q with q1
  injection q1 with q2
  exact absurd q2 (by decide)

/-- The study-style payload is not the stress payload (`level` is absent from
the former). -/
theorem studyStress_ne : mockStudyStyleJs ≠ mockStressJs := by
  apply js_ne_of_field _ _ "level"
  intro q
  rw [show Js.getField mockStudyStyleJs "level" = none from rfl] at q
  rw [show Js.getField mockStressJs "level" = some (Js.str "Moderate") from rfl] at q
  exact Option.noConfusion q

/-! ## The claims -/

/-- C1: for every feature type and every provider outcome (any client state
and any network behaviour — unconfigured, failing, or answering arbitrarily),
the pipeline yields a response and no error escapes its boundary; and when
every provider call fails the response is the one derived from the mock
generator. -/
theorem c1_pipeline_total_and_mock_fallback :
    (∀ (f : Feature) (st : PuterClientState) (net : Net) (a : FeatureArgs),
        ∃ r, runFeature f st net a = Except.ok r) ∧
    (∀ (f : Feature) (a : FeatureArgs),
        runFeature f initialState netAllFail a = Except.ok (mockPathResult f a)) :=
  ⟨runFeature_isOk, runFeature_netAllFail⟩

/-- C2 counterexample: a provider success whose payload is the valid JSON
object `{}` is passed through the study-style route unvalidated, so the caller
receives a response missing every required schema field — refuting the claim
that every response contains the feature\x27s required fields. -/
theorem c2_counterexample :
    runFeature .studyStyle initialState (netConst (jsonResp (Js.obj []))) sampleArgs
        = Except.ok (.jsonOut (Js.obj [])) ∧
    schemaOK .studyStyle (.jsonOut (Js.obj [])) = false :=
  ⟨rfl, rfl⟩

/-- C2 (amended): along the mock-fallback path (no provider reachable) every
feature whose inputs carry no higher-precedence keyword receives a
schema-complete response; the provider-parse path performs no shape check. -/
theorem c2_mock_path_schema_complete (f : Feature) (a : FeatureArgs)
    (h : cleanArgs f a = true) :
    ∃ r, runFeature f initialState netAllFail a = Except.ok r ∧
      schemaOK f r = true := by
  cases f
  case studyStyle =>
    refine ⟨.jsonOut mockStudyStyleJs, ?_, rfl⟩
    rw [runFeature_netAllFail]
    have hg : generateSmartResponse (studyStylePrompt a.answers)
        = .jsonOf mockStudyStyleJs := by
      apply gsr_study
      rw [studyStylePrompt_matches]
      rfl
    unfold mockPathResult
    rw [hg]
    rfl
  case stress =>
    simp only [cleanArgs, Bool.and_eq_true, Bool.not_eq_true'] at h
    refine ⟨.jsonOut mockStressJs, ?_, rfl⟩
    rw [runFeature_netAllFail]
    have hg : generateSmartResponse (stressPrompt a.lifestyle)
        = .jsonOf mockStressJs := by
      apply gsr_stress _ h.1 h.2
      rw [stressPrompt_contains_stress]
      rfl
    unfold mockPathResult
    rw [hg]
    rfl
  case genieguide =>
    simp only [cleanArgs, Bool.and_eq_true, Bool.not_eq_true'] at h
    refine ⟨.jsonOut mockRoadmapJs, ?_, rfl⟩
    rw [runFeature_netAllFail]
    have hg : generateSmartResponse (geniePrompt a.courseInfo a.weeklyHours)
        = .jsonOf mockRoadmapJs := by
      apply gsr_roadmap _ h.1.1.1 h.1.1.2 h.1.2 h.2
      rw [geniePrompt_contains_roadmap]
      rfl
    unfold mockPathResult
    rw [hg]
    rfl
  case chat =>
    exact ⟨.chatOut (generateSmartResponse (chatPrompt a.rows a.message)),
           runFeature_netAllFail .chat a, rfl⟩
  case support =>
    exact ⟨.supportOut (generateSmartResponse (supportPrompt a.message)) disclaimerText,
           runFeature_netAllFail .support a, rfl⟩

/-- C2 witness: the stress feature with keyword-neutral inputs and no provider
reachable gets a schema-complete response. -/
theorem c2_witness :
    cleanArgs .stress sampleArgs = true ∧
    (∃ r, runFeature .stress initialState netAllFail sampleArgs = Except.ok r ∧
      schemaOK .stress r = true) :=
  ⟨by decide, c2_mock_path_schema_complete .stress sampleArgs (by decide)⟩

/-- C3 counterexample: a provider success carrying unparseable text does NOT
produce the same outcome as a provider call failure on the stress route — the
former yields the route-level mock (`level: Medium`), the latter the mock
generator\x27s stress payload (`level: Moderate`). -/
theorem c3_counterexample :
    runFeature .stress initialState (netConst (textResp "Sure! Here is my answer.")) sampleArgs
        = Except.ok (.jsonOut stressRouteMock) ∧
    runFeature .stress initialState netAllFail sampleArgs
        = Except.ok (.jsonOut mockStressJs) ∧
    runFeature .stress initialState (netConst (textResp "Sure! Here is my answer.")) sampleArgs
        ≠ runFeature .stress initialState netAllFail sampleArgs := by
  refine ⟨rfl, rfl, ?_⟩
  intro h
  rw [show runFeature .stress initialState (netConst (textResp "Sure! Here is my answer.")) sampleArgs
        = Except.ok (.jsonOut stressRouteMock) from rfl] at h
  rw [show runFeature .stress initialState netAllFail sampleArgs
        = Except.ok (.jsonOut mockStressJs) from rfl] at h
  injection h with h1
  injection h1 with h2
  exact stressMocks_ne h2

/-- C3 (amended): on each JSON-parsed feature, a provider success whose text
is not valid JSON falls through to the route-level mock table (a mock, though
not the same mock the generator yields on a call failure), and the raw
unparseable text is never returned to the caller. -/
theorem c3_nonjson_success_yields_route_mock (a : FeatureArgs) (s : String) :
    runFeature .studyStyle initialState (netConst (textResp s)) a
        = Except.ok (.jsonOut studyStyleRouteMock) ∧
    runFeature .stress initialState (netConst (textResp s)) a
        = Except.ok (.jsonOut stressRouteMock) ∧
    runFeature .genieguide initialState (netConst (textResp s)) a
        = Except.ok (.jsonOut genieRouteMock) :=
  ⟨rfl, rfl, rfl⟩

/-- C4 counterexample: with no provider reachable, the stress route answers
with the mock generator\x27s stress payload (`level: "Moderate"`, 4 drivers,
5 suggestions), not the route\x27s static `{level: "Medium", 3 drivers,
4 suggestions}` table the claim names. -/
theorem c4_counterexample :
    stressHandler initialState netAllFail "sleep 4 hours, heavy workload"
        = Except.ok (.jsonOut mockStressJs) ∧
    stressHandler initialState netAllFail "sleep 4 hours, heavy workload"
        ≠ Except.ok (.jsonOut stressRouteMock) := by
  refine ⟨rfl, ?_⟩
  intro h
  rw [show stressHandler initialState netAllFail "sleep 4 hours, heavy workload"
        = Except.ok (.jsonOut mockStressJs) from rfl] at h
  injection h with h1
  injection h1 with h2
  exact stressMocks_ne h2.symm

/-- C4 (amended): when the stress feature is invoked with lifestyle data free
of study-style keywords and no provider is reachable, the response is exactly
the mock generator\x27s stress table — `level: "Moderate"`, 4 drivers and
5 suggestions; the route\x27s static Medium table is reserved for the
unparseable-provider-text path. -/
theorem c4_stress_fallback_is_generator_table (lifestyle : String)
    (h1 : includes (toLowerCase (stressPrompt lifestyle)) "study style" = false)
    (h2 : includes (toLowerCase (stressPrompt lifestyle)) "learning" = false) :
    stressHandler initialState netAllFail lifestyle
        = Except.ok (.jsonOut mockStressJs) := by
  have hg : generateSmartResponse (stressPrompt lifestyle) = .jsonOf mockStressJs := by
    apply gsr_stress _ h1 h2
    rw [stressPrompt_contains_stress]
    rfl
  have hi : stressInner initialState netAllFail lifestyle
      = jsonParse (generateSmartResponse (stressPrompt lifestyle)) := rfl
  unfold stressHandler
  rw [hi, hg]
  rfl

/-- C4 witness: a concrete keyword-neutral lifestyle serialisation. -/
theorem c4_witness :
    includes (toLowerCase (stressPrompt "sleep 4 hours, heavy workload")) "study style" = false ∧
    includes (toLowerCase (stressPrompt "sleep 4 hours, heavy workload")) "learning" = false ∧
    stressHandler initialState netAllFail "sleep 4 hours, heavy workload"
        = Except.ok (.jsonOut mockStressJs) :=
  ⟨by decide, by decide,
   c4_stress_fallback_is_generator_table _ (by decide) (by decide)⟩

/-- C5 counterexample: the input "learning stress roadmap" holds both "stress"
and "roadmap", yet the study-style payload is returned (the study-style check
runs first), refuting the claim\x27s "for any input containing both". -/
theorem c5_counterexample :
    generateSmartResponse "learning stress roadmap" = .jsonOf mockStudyStyleJs ∧
    generateSmartResponse "learning stress roadmap" ≠ .jsonOf mockStressJs := by
  refine ⟨rfl, ?_⟩
  intro h
  rw [show generateSmartResponse "learning stress roadmap" = .jsonOf mockStudyStyleJs from rfl] at h
  injection h with h1
  exact studyStress_ne h1

/-- C5 (amended): the dispatch checks the categories in the fixed source
order, first match winning; in particular an input containing "stress" and
"roadmap" — and no higher-precedence "study style"/"learning" keyword — gets
the stress payload. -/
theorem c5_keyword_precedence (s : String)
    (h1 : includes (toLowerCase s) "study style" = false)
    (h2 : includes (toLowerCase s) "learning" = false)
    (h3 : includes (toLowerCase s) "stress" = true)
    (_h4 : includes (toLowerCase s) "roadmap" = true) :
    generateSmartResponse s = .jsonOf mockStressJs := by
  apply gsr_stress _ h1 h2
  rw [h3]
  rfl

/-- C5 witness: a concrete input holding both "stress" and "roadmap" and no
study-style keyword. -/
theorem c5_witness :
    includes (toLowerCase "please reduce my stress and build a roadmap") "study style" = false ∧
    includes (toLowerCase "please reduce my stress and build a roadmap") "learning" = false ∧
    includes (toLowerCase "please reduce my stress and build a roadmap") "stress" = true ∧
    includes (toLowerCase "please reduce my stress and build a roadmap") "roadmap" = true ∧
    generateSmartResponse "please reduce my stress and build a roadmap" = .jsonOf mockStressJs :=
  ⟨by decide, by decide, by decide, by decide,
   c5_keyword_precedence _ (by decide) (by decide) (by decide) (by decide)⟩

/-- C6: a provider adapter with a missing credential is unavailable, fails
immediately and identically under any two network behaviours (no remote call
is attempted), and with zero credentials every feature invocation still
completes with the mock-derived structured response. -/
theorem c6_unconfigured_is_unavailable_and_mock_mode_works :
    OpenRouterClient.isAvailable { apiKey := none } = false ∧
    (∀ (c : OpenRouterClient) (net net2 : OrNet) (p : String),
        c.isAvailable = false →
        c.generateResponse net p = Except.error "OpenRouter client not available" ∧
        c.generateResponse net p = c.generateResponse net2 p) ∧
    (∀ (f : Feature) (a : FeatureArgs),
        runFeature f initialState netAllFail a = Except.ok (mockPathResult f a)) := by
  refine ⟨rfl, ?_, runFeature_netAllFail⟩
  intro c net net2 p h
  constructor
  · unfold OpenRouterClient.generateResponse
    rw [h]
    rfl
  · unfold OpenRouterClient.generateResponse
    rw [h]
    rfl

/-- C6 witness: the keyless OpenRouter client fails identically under a
succeeding and a failing network, without calling either. -/
theorem c6_witness :
    OpenRouterClient.generateResponse { apiKey := none } (fun _ => some "pong") "hi"
        = Except.error "OpenRouter client not available" ∧
    OpenRouterClient.generateResponse { apiKey := none } (fun _ => some "pong") "hi"
        = OpenRouterClient.generateResponse { apiKey := none } (fun _ => none) "hi" :=
  c6_unconfigured_is_unavailable_and_mock_mode_works.2.1
    { apiKey := none } (fun _ => some "pong") (fun _ => none) "hi" rfl

/-- C7: the mock generator is a pure function of its input and is constant on
each keyword category — two prompts of the same category get byte-identical
content. -/
theorem c7_mock_deterministic_per_category (p q : String)
    (h : mockCategory p = mockCategory q) :
    generateSmartResponse p = generateSmartResponse q := by
  rw [gsr_eq_payload, gsr_eq_payload, h]

/-- C7 witness: two different prompts of the stress category. -/
theorem c7_witness :
    mockCategory "stress about exams" = mockCategory "my stress levels" ∧
    generateSmartResponse "stress about exams" = generateSmartResponse "my stress levels" :=
  ⟨by decide, c7_mock_deterministic_per_category _ _ (by decide)⟩

/-- C8: the adapter tries its candidate endpoints in the fixed source order,
advances only on a call failure, returns the first success, and extracts the
payload by checking `response`, `message`, `content` in that order before
falling back to the whole body. -/
theorem c8_endpoint_order_and_field_extraction
    (net : Net) (p : String) (d : RespData) (c : ContentStr) :
    (d.response = some c → extractContent d = c) ∧
    (d.response = none → d.message = some c → extractContent d = c) ∧
    (d.response = none → d.message = none → d.content = some c →
        extractContent d = c) ∧
    (d.response = none → d.message = none → d.content = none →
        extractContent d = d.body) ∧
    (net (apiBaseUrl ++ "/ai/chat") = some d →
        PuterClient.chat initialState net p
          = { message := { content := extractContent d } }) ∧
    (net (apiBaseUrl ++ "/ai/chat") = none →
        net (apiBaseUrl ++ "/v1/chat/completions") = some d →
        PuterClient.chat initialState net p
          = { message := { content := extractContent d } }) ∧
    (net (apiBaseUrl ++ "/ai/chat") = none →
        net (apiBaseUrl ++ "/v1/chat/completions") = none →
        net "https://puter.com/api/ai/chat" = some d →
        PuterClient.chat initialState net p
          = { message := { content := extractContent d } }) ∧
    (net (apiBaseUrl ++ "/ai/chat") = none →
        net (apiBaseUrl ++ "/v1/chat/completions") = none →
        net "https://puter.com/api/ai/chat" = none →
        PuterClient.chat initialState net p
          = { message := { content := generateSmartResponse p } }) := by
  refine ⟨?_, ?_, ?_, ?_, ?_, ?_, ?_, ?_⟩
  · intro h1
    unfold extractContent
    rw [h1]
  · intro h1 h2
    unfold extractContent
    rw [h1, h2]
  · intro h1 h2 h3
    unfold extractContent
    rw [h1, h2, h3]
  · intro h1 h2 h3
    unfold extractContent
    rw [h1, h2, h3]
  · intro h1
    simp [PuterClient.chat, initialState, tryEndpoints, puterEndpoints, h1]
  · intro h1 h2
    simp [PuterClient.chat, initialState, tryEndpoints, puterEndpoints, h1, h2]
  · intro h1 h2 h3
    simp [PuterClient.chat, initialState, tryEndpoints, puterEndpoints, h1, h2, h3]
  · intro h1 h2 h3
    simp [PuterClient.chat, initialState, tryEndpoints, puterEndpoints, h1, h2, h3]

/-- C8 witness: a payload with `response` absent and `message` set is
extracted from `message`. -/
theorem c8_witness :
    extractContent { response := none, message := some (ContentStr.plain "hi"),
                     content := none, body := ContentStr.plain "whole" }
      = ContentStr.plain "hi" :=
  (c8_endpoint_order_and_field_extraction netAllFail "q"
      { response := none, message := some (ContentStr.plain "hi"),
        content := none, body := ContentStr.plain "whole" }
      (ContentStr.plain "hi")).2.1 rfl rfl

/-- C9: the chat route, asked "Can you help me build a roadmap for my course?"
with no provider reachable and no history, answers with the roadmap-flavoured
canned payload, not the generic NOVA study-tips text. -/
theorem c9_roadmap_chat_scenario :
    chatHandler initialState netAllFail [] "Can you help me build a roadmap for my course?"
        = Except.ok (.chatOut (.jsonOf mockRoadmapJs)) ∧
    ContentStr.jsonOf mockRoadmapJs ≠ ContentStr.plain novaDefaultText := by
  refine ⟨rfl, ?_⟩
  rintro ⟨⟩

/-- C10: calling `chatWithMessages` with an empty messages list propagates an
error past the adapter boundary (the catch block rethrows the `TypeError`),
instead of returning a fallback response. -/
theorem c10_chatWithMessages_empty_throws (st : PuterClientState) (net : Net) :
    chatWithMessages st net []
      = Except.error "TypeError: cannot read properties of undefined" :=
  rfl

end StudyGenie
